import Mathlib

/-
Verification of the vendor_invoice purchase-invoice engine.

Shallow embedding of the Python sources:
  * utils/invoice_data.py   (term calculator, selection validation,
                             invoice persistence, invoice-number generation,
                             uninvoiced-AN row computation)
  * pages/1_Create_Invoice.py (the confirm-step deduplication that precedes
                             persistence)

Machine floats of the source are modelled as exact rationals; Python's
round(x, 2) (round-half-to-even) is modelled by round2 below.  Database
side effects are modelled by explicit state passing over a DB record, and
the `engine.begin()` transaction semantics (commit on normal exit,
rollback on exception) is part of the model: a run either commits all its
inserts or leaves the DB untouched.  Environment-chosen insert failures
are supplied through a FailSpec oracle.  String operations are modelled
over character lists so that every definition evaluates by kernel
reduction.
-/

/-- Test whether the first list is a leading segment of the second. -/
def listStartsWith : List Char → List Char → Bool
  | [], _ => true
  | _ :: _, [] => false
  | p :: ps, c :: cs => p == c && listStartsWith ps cs

/-- Fuel-driven worker for replaceAllChars; one unit of fuel is spent per
character position, so fuel equal to the list length always suffices. -/
def replaceFuel (pat rep : List Char) : Nat → List Char → List Char
  | 0, s => s
  | _ + 1, [] => []
  | fuel + 1, c :: rest =>
    if listStartsWith pat (c :: rest) && !pat.isEmpty then
      rep ++ replaceFuel pat rep fuel (rest.drop (pat.length - 1))
    else
      c :: replaceFuel pat rep fuel rest

/-- Python str.replace for a non-empty pattern: replace every non-overlapping
occurrence, scanning left to right. -/
def replaceAllChars (pat rep s : List Char) : List Char :=
  replaceFuel pat rep s.length s

/-- Python s.split()[0] as an Option: the first maximal run of
non-whitespace characters, none when the string is empty or all whitespace
(where the subscript raises IndexError). -/
def firstWsToken (cs : List Char) : Option (List Char) :=
  let t := cs.dropWhile (fun c => c.isWhitespace)
  match t with
  | [] => none
  | _ => some (t.takeWhile (fun c => !c.isWhitespace))

/-- Python substring test `pat in s` for a non-empty pattern. -/
def containsSeq (pat : List Char) : List Char → Bool
  | [] => false
  | c :: rest => listStartsWith pat (c :: rest) || containsSeq pat rest

/-- Strip leading and trailing whitespace. -/
def trimChars (cs : List Char) : List Char :=
  ((cs.dropWhile (fun c => c.isWhitespace)).reverse.dropWhile
    (fun c => c.isWhitespace)).reverse

/-- Numeric value of an ASCII digit character. -/
def charDigitVal (c : Char) : Nat := c.toNat - 48

/-- Accumulate the value of a digit run, none at the first non-digit. -/
def digitsVal : List Char → Nat → Option Nat
  | [], acc => some acc
  | c :: rest, acc =>
    if c.isDigit then digitsVal rest (acc * 10 + charDigitVal c) else none

/-- Parse a non-empty all-digit sequence as a natural number. -/
def parseNatDigits (cs : List Char) : Option Nat :=
  match cs with
  | [] => none
  | _ => digitsVal cs 0

/-- Python `int(s)` on a plain decimal integer string: optional surrounding
whitespace, optional sign, digits.  Returns none where int() raises
ValueError. -/
def pyIntParse (cs : List Char) : Option Int :=
  match trimChars cs with
  | '-' :: rest => (parseNatDigits rest).map (fun n => -(n : Int))
  | '+' :: rest => (parseNatDigits rest).map (fun n => (n : Int))
  | t => (parseNatDigits t).map (fun n => (n : Int))

/-- Split at every '.' character. -/
def splitOnDot : List Char → List (List Char)
  | [] => [[]]
  | c :: rest =>
    if c == '.' then [] :: splitOnDot rest
    else
      match splitOnDot rest with
      | t :: ts => (c :: t) :: ts
      | [] => [[c]]

/-- Python `float(s)` on a plain decimal literal (the shape stored in
`buying_unit_cost`, e.g. "12.50"): optional sign, digits, optional
fractional part.  Returns none where float() raises ValueError. -/
def pyFloatParse (cs : List Char) : Option ℚ :=
  let t := trimChars cs
  let sign : ℚ := if listStartsWith ['-'] t then -1 else 1
  let t := if listStartsWith ['-'] t || listStartsWith ['+'] t then t.drop 1 else t
  match splitOnDot t with
  | [a] => (parseNatDigits a).map (fun n => sign * (n : ℚ))
  | [a, b] =>
    if a.isEmpty && b.isEmpty then none
    else
      match (if a.isEmpty then some 0 else parseNatDigits a),
            (if b.isEmpty then some 0 else parseNatDigits b) with
      | some ai, some bi =>
        some (sign * ((ai : ℚ) + (bi : ℚ) / (10 : ℚ) ^ b.length))
      | _, _ => none
  | _ => none

/-- Nearest integer with ties to even: Python's round() on an exact value. -/
def roundHalfEven (q : ℚ) : ℤ :=
  let f := ⌊q⌋
  let frac := q - f
  if frac < 1 / 2 then f
  else if 1 / 2 < frac then f + 1
  else if f % 2 = 0 then f else f + 1

/-- Python round(x, 2). -/
def round2 (q : ℚ) : ℚ :=
  (roundHalfEven (q * 100) : ℚ) / 100

/-- Generic first-occurrence deduplication by key, the behaviour of both
pandas Series.unique() (key = identity) and
DataFrame.drop_duplicates(subset=[k]). -/
def dropDupAux {α β : Type} [BEq β] (key : α → β) (seen : List β) : List α → List α
  | [] => []
  | a :: rest =>
    if seen.contains (key a) then dropDupAux key seen rest
    else a :: dropDupAux key (key a :: seen) rest

/-- pandas Series.unique(): distinct values in order of first appearance. -/
def pdUnique (xs : List String) : List String :=
  dropDupAux (fun x => x) [] xs

/-- pandas DataFrame.drop_duplicates(subset=[key]): keep the first row per
key value. -/
def pdDropDuplicates {α β : Type} [BEq β] (key : α → β) (xs : List α) : List α :=
  dropDupAux key [] xs

/-- calculate_days_from_term_name from utils/invoice_data.py lines 611-627.
The argument is none where pd.isna(term_name) holds (None/NaN), otherwise
the term label.  The bare `except` around int() also catches the IndexError
of `split()[0]` on an empty remainder. -/
def calculate_days_from_term_name (term_name : Option String) : Int :=
  match term_name with
  | none => 30
  | some t =>
    if listStartsWith "Net ".data t.data then
      match firstWsToken (replaceAllChars "Net ".data [] t.data) with
      | none => 30
      | some tok =>
        match pyIntParse tok with
        | some n => n
        | none => 30
    else if t == "COD" || t == "CIA" || t == "TT IN ADVANCE"
         || containsSeq "Advance".data t.data then 0
    else 30

/-- Reading of claim C5's Net-branch, written from the claim's words: an
input starting with "Net " followed by a parseable integer returns that
integer, and returns 30 if the suffix is unparseable; the other branches
as in the claim. -/
def c5_claim_days (t : Option String) : Int :=
  match t with
  | none => 30
  | some s =>
    if listStartsWith "Net ".data s.data then
      match pyIntParse (s.data.drop 4) with
      | some n => n
      | none => 30
    else if s == "COD" || s == "CIA" || s == "TT IN ADVANCE"
         || containsSeq "Advance".data s.data then 0
    else 30

/-- Amended description of the Net-branch: remove every occurrence of
"Net " from the input, take the first whitespace token of the remainder,
and return its integer value, with 30 when there is no such token or it
does not parse. -/
def c5_amended_days (t : Option String) : Int :=
  match t with
  | none => 30
  | some s =>
    if listStartsWith "Net ".data s.data then
      (((firstWsToken (replaceAllChars "Net ".data [] s.data))).bind pyIntParse).getD 30
    else if s == "COD" || s == "CIA" || s == "TT IN ADVANCE"
         || containsSeq "Advance".data s.data then 0
    else 30

/-- Columns of the selected-AN dataframe that validate_invoice_selection
reads. -/
structure SelRow where
  vendor_code : String
  vendor_type : String
  legal_entity_code : String
deriving DecidableEq

/-- validate_invoice_selection from utils/invoice_data.py lines 327-352:
empty check, then single vendor, then single vendor type, then single
legal entity; first failing rule returns its message. -/
def validate_invoice_selection (selected_df : List SelRow) : Bool × String :=
  if selected_df.isEmpty then
    (false, "No items selected")
  else
    let vendors := pdUnique (selected_df.map SelRow.vendor_code)
    if 1 < vendors.length then
      (false, "Multiple vendors selected: " ++ String.intercalate ", " vendors
        ++ ". Please select ANs from a single vendor.")
    else
      let vendor_types := pdUnique (selected_df.map SelRow.vendor_type)
      if 1 < vendor_types.length then
        (false, "Cannot mix Internal and External vendors in the same invoice")
      else
        let entities := pdUnique (selected_df.map SelRow.legal_entity_code)
        if 1 < entities.length then
          (false, "Multiple legal entities selected: " ++ String.intercalate ", " entities
            ++ ". Please select ANs from a single entity.")
        else
          (true, "")

/-- generate_invoice_number from utils/invoice_data.py lines 534-559
(non-exception path).  date_str stands for datetime.now().strftime of
"%Y%m%d"; max_id_cell models the single MAX(id) cell fetched from
purchase_invoices, none when the table is empty (SQL NULL).  The source's
`result[0] if result and result[0] else 0` keeps the cell when it is
non-NULL and non-zero. -/
def generate_invoice_number (vendor_id buyer_id : Option Int)
    (is_advance_payment : Bool) (date_str : String) (max_id_cell : Option Nat) : String :=
  let v : Int := match vendor_id with | some n => n | none => 0
  let b : Int := match buyer_id with | some n => n | none => 0
  let last_id : Nat :=
    match max_id_cell with
    | some n => if n ≠ 0 then n else 0
    | none => 0
  let seq := last_id + 1
  let suffix := if is_advance_payment then "A" else "P"
  "V-INV" ++ date_str ++ "-" ++ toString v ++ toString b ++ toString seq ++ "-" ++ suffix

/-- Quantity columns of one row of can_tracking_full_view joined with
product_purchase_orders, as read by the true_remaining_qty computation in
get_uninvoiced_ans. -/
structure CanViewRow where
  uninvoiced_quantity : ℚ
  po_line_pending_invoiced_qty : ℚ
deriving DecidableEq

/-- One output row of get_uninvoiced_ans, restricted to the quantity
columns the claims are about. -/
structure AnRow where
  uninvoiced_quantity : ℚ
  po_line_pending_invoiced_qty : ℚ
  true_remaining_qty : ℚ
deriving DecidableEq

/-- get_uninvoiced_ans from utils/invoice_data.py lines 14-224, restricted
to its quantity computation: the WHERE clause keeps rows with
uninvoiced_quantity > 0 and each kept row gets
true_remaining_qty = GREATEST(0, LEAST(uninvoiced_quantity,
po_line_pending_invoiced_qty)). -/
def get_uninvoiced_ans (view : List CanViewRow) : List AnRow :=
  (view.filter (fun r => 0 < r.uninvoiced_quantity)).map
    (fun r =>
      { uninvoiced_quantity := r.uninvoiced_quantity,
        po_line_pending_invoiced_qty := r.po_line_pending_invoiced_qty,
        true_remaining_qty :=
          max 0 (min r.uninvoiced_quantity r.po_line_pending_invoiced_qty) })

/-- Python truthiness filter on an optional string field fetched with
dict.get: the field is included only when present and non-empty. -/
def pyTruthyStr (o : Option String) : Option String :=
  match o with
  | some s => if s = "" then none else some s
  | none => none

/-- Keys of the invoice_data dict read by create_purchase_invoice.  Keys
the source reads with plain subscripting are required fields; keys read
with .get are optional. -/
structure InvoiceData where
  invoice_number : String
  invoiced_date : String
  due_date : String
  total_invoiced_amount : ℚ
  seller_id : Nat
  buyer_id : Nat
  currency_id : Nat
  payment_term_id : Nat
  invoice_currency_code : String
  po_to_invoice_rate : Option ℚ
  commercial_invoice_no : Option String
  usd_exchange_rate : Option ℚ
  invoice_type : Option String
  email_to_accountant : Option Bool
  advance_payment : Option Bool

/-- Columns of the details_df dataframe read by create_purchase_invoice.
buying_unit_cost is the raw "value CURRENCY" string of the source;
product_purchase_order_id is none where the column is missing or NULL. -/
structure DetailRow where
  purchase_order_id : Nat
  product_purchase_order_id : Option Int
  arrival_detail_id : Nat
  buying_unit_cost : String
  uninvoiced_quantity : ℚ

/-- One row of purchase_invoices as inserted by create_purchase_invoice
(created_date and delete_flag, filled by the database, are omitted). -/
structure Header where
  invoice_number : String
  invoiced_date : String
  due_date : String
  total_invoiced_amount : ℚ
  total_invoiced_amount_exclude_vat : ℚ
  seller_id : Nat
  buyer_id : Nat
  currency_id : Nat
  payment_term_id : Nat
  created_by : String
  commercial_invoice_no : Option String
  usd_exchange_rate : Option ℚ
  invoice_type : Option String
  email_to_accountant : Option Bool
  advance_payment : Option Bool

/-- One row of purchase_invoice_details as inserted by
create_purchase_invoice (delete_flag omitted). -/
structure Detail where
  purchase_invoice_id : Nat
  purchase_order_id : Nat
  product_purchase_order_id : Option Int
  arrival_detail_id : Nat
  purchased_invoice_quantity : ℚ
  invoiced_quantity : ℚ
  amount : ℚ
  amount_exclude_vat : ℚ
  vat_gst : ℚ
  exchange_rate : ℚ

/-- Database state visible to create_purchase_invoice: the username to
keycloak_id resolution (users joined with employees, delete_flag = 0), the
non-deleted product_purchase_orders vat_gst column, the next
auto-increment id of purchase_invoices, and the two invoice tables. -/
structure DB where
  users : List (String × String)
  ppos : List (Int × Option ℚ)
  next_invoice_id : Nat
  headers : List (Nat × Header)
  details : List Detail

/-- Environment oracle for the fallible INSERT statements: some message
means the statement raises a database exception carrying that message.
Detail inserts are indexed by position in details_df. -/
structure FailSpec where
  header_insert_fails : Option String
  detail_insert_fails : Nat → Option String

/-- Extraction of the numeric unit cost from a details_df row:
float(row['buying_unit_cost'].split()[0]).  The error branches model the
IndexError of split()[0] on a blank string and the ValueError of float(). -/
def rowUnitCost (row : DetailRow) : Except String ℚ :=
  match firstWsToken row.buying_unit_cost.data with
  | none => Except.error "list index out of range"
  | some tok =>
    match pyFloatParse tok with
    | none => Except.error ("could not convert string to float: " ++ String.mk tok)
    | some v => Except.ok v

/-- Write-time VAT lookup of create_purchase_invoice lines 453-464: start
from 0, and only when the row carries a truthy product_purchase_order_id
query product_purchase_orders; keep 0 when no row comes back or the
fetched vat_gst is NULL. -/
def lookupVat (db : DB) (ppo_id : Option Int) : ℚ :=
  if ppo_id.getD 0 ≠ 0 then
    match db.ppos.find? (fun p => p.1 == ppo_id.getD 0) with
    | some (_, some v) => v
    | _ => 0
  else 0

/-- First pass of create_purchase_invoice (lines 384-396): accumulate the
unrounded sum of unit_cost * quantity * po_to_invoice_rate, stopping at
the first row whose unit-cost string fails to parse. -/
def firstPassTotal (rate : ℚ) : List DetailRow → Except String ℚ
  | [] => Except.ok 0
  | row :: rest =>
    match rowUnitCost row with
    | Except.error e => Except.error e
    | Except.ok uc =>
      match firstPassTotal rate rest with
      | Except.error e => Except.error e
      | Except.ok t => Except.ok (uc * row.uninvoiced_quantity * rate + t)

/-- The header row built from header_params (lines 398-426): optional
fields are included only when present (and truthy, for the string
fields). -/
def mkHeader (data : InvoiceData) (keycloak_id : String) (total_amount_exclude_vat : ℚ) :
    Header :=
  { invoice_number := data.invoice_number,
    invoiced_date := data.invoiced_date,
    due_date := data.due_date,
    total_invoiced_amount := data.total_invoiced_amount,
    total_invoiced_amount_exclude_vat := round2 total_amount_exclude_vat,
    seller_id := data.seller_id,
    buyer_id := data.buyer_id,
    currency_id := data.currency_id,
    payment_term_id := data.payment_term_id,
    created_by := keycloak_id,
    commercial_invoice_no := pyTruthyStr data.commercial_invoice_no,
    usd_exchange_rate := data.usd_exchange_rate,
    invoice_type := pyTruthyStr data.invoice_type,
    email_to_accountant := data.email_to_accountant,
    advance_payment := data.advance_payment }

/-- The detail row built for one details_df row (lines 448-487): VAT
percent looked up at write time, amount_exclude_vat rounded from
unit_cost * quantity * rate, amount rounded from the VAT multiplier. -/
def mkDetail (db : DB) (rate : ℚ) (invoice_id : Nat) (row : DetailRow) (uc : ℚ) : Detail :=
  let vat_percent := lookupVat db row.product_purchase_order_id
  let amount_exclude_vat := round2 (uc * row.uninvoiced_quantity * rate)
  { purchase_invoice_id := invoice_id,
    purchase_order_id := row.purchase_order_id,
    product_purchase_order_id := row.product_purchase_order_id,
    arrival_detail_id := row.arrival_detail_id,
    purchased_invoice_quantity := row.uninvoiced_quantity,
    invoiced_quantity := row.uninvoiced_quantity,
    amount := round2 (amount_exclude_vat * (1 + vat_percent / 100)),
    amount_exclude_vat := amount_exclude_vat,
    vat_gst := vat_percent,
    exchange_rate := rate }

/-- Second pass of create_purchase_invoice (lines 448-517): build and
insert one detail row per details_df row, stopping at the first parse
failure or environment-chosen insert failure. -/
def insertDetails (db : DB) (rate : ℚ) (invoice_id : Nat) (fails : Nat → Option String) :
    List DetailRow → Nat → Except String (List Detail)
  | [], _ => Except.ok []
  | row :: rest, i =>
    match rowUnitCost row with
    | Except.error e => Except.error e
    | Except.ok uc =>
      match fails i with
      | some e => Except.error e
      | none =>
        match insertDetails db rate invoice_id fails rest (i + 1) with
        | Except.error e => Except.error e
        | Except.ok ds => Except.ok (mkDetail db rate invoice_id row uc :: ds)

/-- Structured result of create_purchase_invoice: the returned
(success, message, invoice_id) triple. -/
structure CreateResult where
  success : Bool
  message : String
  invoice_id : Option Nat

/-- create_purchase_invoice from utils/invoice_data.py lines 356-531.  The
engine.begin() block commits all inserts on normal exit; any exception
rolls the transaction back and is converted by the except clause into a
structured failure, so every failing run returns the original DB.  The
early return on an unresolvable creator commits an empty transaction,
which also leaves the DB unchanged.  (MySQL's auto-increment counter may
advance on a rolled-back insert; the model tracks only table contents.) -/
def create_purchase_invoice (db : DB) (fs : FailSpec) (invoice_data : InvoiceData)
    (details_df : List DetailRow) (user_id : String) : CreateResult × DB :=
  match db.users.find? (fun u => u.1 == user_id) with
  | none => ({ success := false, message := "Invalid user: " ++ user_id, invoice_id := none }, db)
  | some uu =>
    let po_to_invoice_rate := invoice_data.po_to_invoice_rate.getD 1
    match firstPassTotal po_to_invoice_rate details_df with
    | Except.error e =>
      ({ success := false, message := "Error creating invoice: " ++ e, invoice_id := none }, db)
    | Except.ok total_amount_exclude_vat =>
      match fs.header_insert_fails with
      | some e =>
        ({ success := false, message := "Error creating invoice: " ++ e, invoice_id := none }, db)
      | none =>
        let invoice_id := db.next_invoice_id
        match insertDetails db po_to_invoice_rate invoice_id fs.detail_insert_fails details_df 0 with
        | Except.error e =>
          ({ success := false, message := "Error creating invoice: " ++ e, invoice_id := none }, db)
        | Except.ok ds =>
          ({ success := true,
             message := "Invoice " ++ invoice_data.invoice_number ++ " created successfully",
             invoice_id := some invoice_id },
           { db with
             next_invoice_id := db.next_invoice_id + 1,
             headers := db.headers
               ++ [(invoice_id, mkHeader invoice_data uu.2 total_amount_exclude_vat)],
             details := db.details ++ ds })

/-- The create-invoice submission step of show_invoice_confirm
(pages/1_Create_Invoice.py lines 1090-1099): the final duplicate check
drops repeated arrival_detail_id rows, keeping the first, before calling
create_purchase_invoice. -/
def show_invoice_confirm_submit (db : DB) (fs : FailSpec) (invoice_data : InvoiceData)
    (details_df : List DetailRow) (user_id : String) : CreateResult × DB :=
  create_purchase_invoice db fs invoice_data
    (pdDropDuplicates DetailRow.arrival_detail_id details_df) user_id

/-- Example database: one resolvable user, one PO line with VAT 10%, one PO
line whose vat_gst is NULL, and empty invoice tables. -/
def dbEx : DB :=
  { users := [("alice", "kc-1")],
    ppos := [(7, some 10), (8, none)],
    next_invoice_id := 1,
    headers := [],
    details := [] }

/-- Oracle under which every insert succeeds. -/
def fsOk : FailSpec :=
  { header_insert_fails := none, detail_insert_fails := fun _ => none }

/-- Oracle under which the second detail insert raises. -/
def fsLine2Fail : FailSpec :=
  { header_insert_fails := none,
    detail_insert_fails := fun i => if i = 1 then some "Lock wait timeout exceeded" else none }

/-- Example invoice_data dict (same-currency invoice, no
po_to_invoice_rate key). -/
def dataEx : InvoiceData :=
  { invoice_number := "V-INV20261012-451-P",
    invoiced_date := "2026-10-12",
    due_date := "2026-11-11",
    total_invoiced_amount := 1650,
    seller_id := 4,
    buyer_id := 5,
    currency_id := 1,
    payment_term_id := 2,
    invoice_currency_code := "USD",
    po_to_invoice_rate := none,
    commercial_invoice_no := some "CI-001",
    usd_exchange_rate := some 1,
    invoice_type := some "COMMERCIAL_INVOICE",
    email_to_accountant := some true,
    advance_payment := some false }

/-- Two AN lines at 100.00 USD with quantities 10 and 5 against PO line 7
(VAT 10%). -/
def rowsEx : List DetailRow :=
  [{ purchase_order_id := 11, product_purchase_order_id := some 7,
     arrival_detail_id := 101, buying_unit_cost := "100.00 USD",
     uninvoiced_quantity := 10 },
   { purchase_order_id := 11, product_purchase_order_id := some 7,
     arrival_detail_id := 102, buying_unit_cost := "100.00 USD",
     uninvoiced_quantity := 5 }]

/-- Two AN lines whose raw line amount 1.004 is not an exact cent
quantity. -/
def rowsC2 : List DetailRow :=
  [{ purchase_order_id := 11, product_purchase_order_id := none,
     arrival_detail_id := 103, buying_unit_cost := "1.004 USD",
     uninvoiced_quantity := 1 },
   { purchase_order_id := 11, product_purchase_order_id := none,
     arrival_detail_id := 104, buying_unit_cost := "1.004 USD",
     uninvoiced_quantity := 1 }]

/-- One AN line against PO line 8, whose vat_gst is NULL. -/
def rowsC10 : List DetailRow :=
  [{ purchase_order_id := 12, product_purchase_order_id := some 8,
     arrival_detail_id := 105, buying_unit_cost := "50 USD",
     uninvoiced_quantity := 2 }]

/-- Example selection spanning two vendors and two legal entities. -/
def selRowsEx : List SelRow :=
  [{ vendor_code := "V1", vendor_type := "External", legal_entity_code := "E1" },
   { vendor_code := "V2", vendor_type := "External", legal_entity_code := "E2" }]

/-- Example view row with uninvoiced quantity 10 and pending quantity 4. -/
def anViewEx : CanViewRow :=
  { uninvoiced_quantity := 10, po_line_pending_invoiced_qty := 4 }

/-- The output row get_uninvoiced_ans produces for anViewEx. -/
def anRowEx : AnRow :=
  { uninvoiced_quantity := 10, po_line_pending_invoiced_qty := 4, true_remaining_qty := 4 }

/-- The three write-time situations in which the VAT lookup of
create_purchase_invoice keeps its initial 0: the row carries no truthy
product_purchase_order_id, no product_purchase_orders row comes back, or
the fetched vat_gst is NULL. -/
def vatFallback (db : DB) (row : DetailRow) : Prop :=
  row.product_purchase_order_id.getD 0 = 0 ∨
  db.ppos.find? (fun p => p.1 == row.product_purchase_order_id.getD 0) = none ∨
  ∃ k, db.ppos.find? (fun p => p.1 == row.product_purchase_order_id.getD 0) =
    some (k, none)

@[simp] lemma charDigitVal_0 : charDigitVal '0' = 0 := by decide

@[simp] lemma charDigitVal_1 : charDigitVal '1' = 1 := by decide

@[simp] lemma charDigitVal_2 : charDigitVal '2' = 2 := by decide

@[simp] lemma charDigitVal_3 : charDigitVal '3' = 3 := by decide

@[simp] lemma charDigitVal_4 : charDigitVal '4' = 4 := by decide

@[simp] lemma charDigitVal_5 : charDigitVal '5' = 5 := by decide

@[simp] lemma charDigitVal_6 : charDigitVal '6' = 6 := by decide

@[simp] lemma charDigitVal_7 : charDigitVal '7' = 7 := by decide

@[simp] lemma charDigitVal_8 : charDigitVal '8' = 8 := by decide

@[simp] lemma charDigitVal_9 : charDigitVal '9' = 9 := by decide

example : calculate_days_from_term_name (some "Net 45") = 45 := by decide

example : calculate_days_from_term_name none = 30 := by decide

example : calculate_days_from_term_name (some "COD") = 0 := by decide

example : calculate_days_from_term_name (some "Some Advance Term") = 0 := by decide

example : calculate_days_from_term_name (some "Net abc") = 30 := by decide

example : calculate_days_from_term_name (some "Net Net 45") = 45 := by decide

example : c5_claim_days (some "Net Net 45") = 30 := by decide

example : round2 (1004 / 1000) = 1 := by norm_num [round2, roundHalfEven]

example : round2 (2008 / 1000) = 201 / 100 := by norm_num [round2, roundHalfEven]

example : pyFloatParse "1.004".data = some (1004 / 1000) := by
  norm_num +decide [pyFloatParse, trimChars, splitOnDot, parseNatDigits, digitsVal,
    listStartsWith]

example : pyFloatParse "100.00".data = some 100 := by
  norm_num +decide [pyFloatParse, trimChars, splitOnDot, parseNatDigits, digitsVal,
    listStartsWith]

lemma roundHalfEven_intCast (k : ℤ) : roundHalfEven (k : ℚ) = k := by
  unfold roundHalfEven
  simp only [Int.floor_intCast, sub_self]
  norm_num

lemma round2_int_div_100 (k : ℤ) : round2 ((k : ℚ) / 100) = (k : ℚ) / 100 := by
  unfold round2
  rw [div_mul_cancel₀ (k : ℚ) (by norm_num : (100 : ℚ) ≠ 0), roundHalfEven_intCast]

lemma round2_eq_int_div_100 (q : ℚ) : round2 q = (roundHalfEven (q * 100) : ℚ) / 100 := rfl

lemma round2_idem (q : ℚ) : round2 (round2 q) = round2 q := by
  rw [round2_eq_int_div_100 q, round2_int_div_100]

lemma dropDupAux_idem {α β : Type} [BEq β] (key : α → β) (xs : List α) :
    ∀ seen, dropDupAux key seen (dropDupAux key seen xs) = dropDupAux key seen xs := by
  induction xs with
  | nil => intro seen; rfl
  | cons a rest ih =>
    intro seen
    by_cases h : seen.contains (key a)
    · simp only [dropDupAux, h, if_true]
      exact ih seen
    · simp only [dropDupAux, h, Bool.false_eq_true, if_false]
      rw [ih (key a :: seen)]

lemma insertDetails_length (db : DB) (rate : ℚ) (invoice_id : Nat) (f : Nat → Option String) :
    ∀ (rows : List DetailRow) (i : Nat) (ds : List Detail),
      insertDetails db rate invoice_id f rows i = Except.ok ds → ds.length = rows.length := by
  intro rows
  induction rows with
  | nil =>
    intro i ds h
    simp only [insertDetails] at h
    cases h
    rfl
  | cons row rest ih =>
    intro i ds h
    simp only [insertDetails] at h
    cases hu : rowUnitCost row with
    | error e => rw [hu] at h; cases h
    | ok uc =>
      rw [hu] at h
      cases hf : f i with
      | some e => rw [hf] at h; cases h
      | none =>
        rw [hf] at h
        cases hr : insertDetails db rate invoice_id f rest (i + 1) with
        | error e => rw [hr] at h; cases h
        | ok ds2 =>
          rw [hr] at h
          cases h
          simp only [List.length_cons, ih (i + 1) ds2 hr]

lemma insertDetails_ok (db : DB) (rate : ℚ) (invoice_id : Nat) (f : Nat → Option String) :
    ∀ (rows : List DetailRow) (i : Nat) (ds : List Detail),
      insertDetails db rate invoice_id f rows i = Except.ok ds →
      List.Forall₂
        (fun (d : Detail) (row : DetailRow) =>
          ∃ uc, rowUnitCost row = Except.ok uc ∧ d = mkDetail db rate invoice_id row uc)
        ds rows := by
  intro rows
  induction rows with
  | nil =>
    intro i ds h
    simp only [insertDetails] at h
    cases h
    exact List.Forall₂.nil
  | cons row rest ih =>
    intro i ds h
    simp only [insertDetails] at h
    cases hu : rowUnitCost row with
    | error e => rw [hu] at h; cases h
    | ok uc =>
      rw [hu] at h
      cases hf : f i with
      | some e => rw [hf] at h; cases h
      | none =>
        rw [hf] at h
        cases hr : insertDetails db rate invoice_id f rest (i + 1) with
        | error e => rw [hr] at h; cases h
        | ok ds2 =>
          rw [hr] at h
          cases h
          exact List.Forall₂.cons ⟨uc, hu, rfl⟩ (ih (i + 1) ds2 hr)

lemma forall₂_mem_left {α β : Type} {P : α → β → Prop} {as : List α} {bs : List β}
    (h : List.Forall₂ P as bs) : ∀ a ∈ as, ∃ b, P a b := by
  induction h with
  | nil => intro a ha; cases ha
  | cons hrel _ ih =>
    intro a ha
    rcases List.mem_cons.mp ha with rfl | ha2
    · exact ⟨_, hrel⟩
    · exact ih a ha2

lemma insertDetails_mem (db : DB) (rate : ℚ) (invoice_id : Nat) (f : Nat → Option String)
    (rows : List DetailRow) (i : Nat) (ds : List Detail)
    (h : insertDetails db rate invoice_id f rows i = Except.ok ds) :
    ∀ d ∈ ds, ∃ row uc, d = mkDetail db rate invoice_id row uc := by
  intro d hd
  rcases forall₂_mem_left (insertDetails_ok db rate invoice_id f rows i ds h) d hd
    with ⟨row, uc, _, he⟩
  exact ⟨row, uc, he⟩

lemma create_purchase_invoice_spec (db : DB) (fs : FailSpec) (data : InvoiceData)
    (rows : List DetailRow) (user : String) :
    ((create_purchase_invoice db fs data rows user).1.success = false →
      (create_purchase_invoice db fs data rows user).2 = db ∧
      (create_purchase_invoice db fs data rows user).1.invoice_id = none) ∧
    ((create_purchase_invoice db fs data rows user).1.success = true →
      ∃ uu T ds,
        db.users.find? (fun u => u.1 == user) = some uu ∧
        firstPassTotal (data.po_to_invoice_rate.getD 1) rows = Except.ok T ∧
        fs.header_insert_fails = none ∧
        insertDetails db (data.po_to_invoice_rate.getD 1) db.next_invoice_id
          fs.detail_insert_fails rows 0 = Except.ok ds ∧
        (create_purchase_invoice db fs data rows user).1.invoice_id = some db.next_invoice_id ∧
        (create_purchase_invoice db fs data rows user).2 =
          { db with
            next_invoice_id := db.next_invoice_id + 1,
            headers := db.headers ++ [(db.next_invoice_id, mkHeader data uu.2 T)],
            details := db.details ++ ds }) := by
  cases h1 : db.users.find? (fun u => u.1 == user) with
  | none => simp [create_purchase_invoice, h1]
  | some uu =>
    cases h2 : firstPassTotal (data.po_to_invoice_rate.getD 1) rows with
    | error e => simp [create_purchase_invoice, h1, h2]
    | ok T =>
      cases h3 : fs.header_insert_fails with
      | some e => simp [create_purchase_invoice, h1, h2, h3]
      | none =>
        cases h4 : insertDetails db (data.po_to_invoice_rate.getD 1) db.next_invoice_id
            fs.detail_insert_fails rows 0 with
        | error e => simp [create_purchase_invoice, h1, h2, h3, h4]
        | ok ds =>
          refine ⟨by simp [create_purchase_invoice, h1, h2, h3, h4],
            fun _ => ⟨uu, T, ds, rfl, rfl, rfl, rfl, ?_, ?_⟩⟩
          · simp [create_purchase_invoice, h1, h2, h3, h4]
          · simp [create_purchase_invoice, h1, h2, h3, h4]

lemma firstPass_sum_eq_line_sum (db : DB) (rate : ℚ) (invoice_id : Nat)
    (f : Nat → Option String) :
    ∀ (rows : List DetailRow) (i : Nat) (T : ℚ) (ds : List Detail),
      firstPassTotal rate rows = Except.ok T →
      insertDetails db rate invoice_id f rows i = Except.ok ds →
      (∀ row ∈ rows, ∃ uc : ℚ, rowUnitCost row = Except.ok uc ∧
        ∃ k : ℤ, uc * row.uninvoiced_quantity * rate = (k : ℚ) / 100) →
      T = (ds.map (fun d => d.amount_exclude_vat)).sum ∧ ∃ k : ℤ, T = (k : ℚ) / 100 := by
  intro rows
  induction rows with
  | nil =>
    intro i T ds h1 h2 _
    simp only [firstPassTotal] at h1
    simp only [insertDetails] at h2
    cases h1
    cases h2
    exact ⟨rfl, 0, by norm_num⟩
  | cons row rest ih =>
    intro i T ds h1 h2 hdec
    simp only [firstPassTotal] at h1
    simp only [insertDetails] at h2
    cases hu : rowUnitCost row with
    | error e => rw [hu] at h1; cases h1
    | ok uc =>
      rw [hu] at h1 h2
      cases ht : firstPassTotal rate rest with
      | error e => rw [ht] at h1; cases h1
      | ok T2 =>
        rw [ht] at h1
        cases h1
        cases hf : f i with
        | some e => rw [hf] at h2; cases h2
        | none =>
          rw [hf] at h2
          cases hr : insertDetails db rate invoice_id f rest (i + 1) with
          | error e => rw [hr] at h2; cases h2
          | ok ds2 =>
            rw [hr] at h2
            cases h2
            rcases hdec row (List.mem_cons_self row rest) with ⟨uc2, hu2, k0, hk0⟩
            rw [hu] at hu2
            cases hu2
            rcases ih (i + 1) T2 ds2 ht hr
              (fun r hr2 => hdec r (List.mem_cons_of_mem row hr2)) with ⟨hsum, k1, hk1⟩
            constructor
            · simp only [List.map_cons, List.sum_cons, mkDetail, hk0, round2_int_div_100,
                ← hsum]
            · exact ⟨k0 + k1, by rw [hk0, hk1] at *; push_cast; ring⟩

lemma lookupVat_fallback (db : DB) (ppo_id : Option Int)
    (h : ppo_id.getD 0 = 0 ∨
         db.ppos.find? (fun p => p.1 == ppo_id.getD 0) = none ∨
         ∃ k, db.ppos.find? (fun p => p.1 == ppo_id.getD 0) = some (k, none)) :
    lookupVat db ppo_id = 0 := by
  unfold lookupVat
  rcases h with h | h | ⟨k, h⟩
  · simp [h]
  · simp [h]
  · by_cases h0 : ppo_id.getD 0 ≠ 0
    · simp [h0, h]
    · simp [h0]

lemma round2_mul_one_vat_zero (q : ℚ) : round2 (round2 q * (1 + 0 / 100)) = round2 q := by
  norm_num [round2_idem]

/-- C1: create_purchase_invoice is all-or-nothing and never raises (the
model is a total function): every failing run, including an unresolvable
creator, a header-insert failure, a line parse failure and any line-insert
failure, returns success = false with no invoice id and leaves the
database exactly as it was, persisting no header and no detail rows; every
successful run returns the new invoice's identifier and commits exactly
one header row and one detail row per input line. -/
theorem c1_create_invoice_atomic (db : DB) (fs : FailSpec) (data : InvoiceData)
    (rows : List DetailRow) (user : String) :
    ((create_purchase_invoice db fs data rows user).1.success = false →
      (create_purchase_invoice db fs data rows user).2 = db ∧
      (create_purchase_invoice db fs data rows user).1.invoice_id = none) ∧
    ((create_purchase_invoice db fs data rows user).1.success = true →
      (create_purchase_invoice db fs data rows user).1.invoice_id = some db.next_invoice_id ∧
      (∃ hd, (create_purchase_invoice db fs data rows user).2.headers =
        db.headers ++ [(db.next_invoice_id, hd)]) ∧
      (∃ ds, (create_purchase_invoice db fs data rows user).2.details = db.details ++ ds ∧
        ds.length = rows.length)) := by
  rcases create_purchase_invoice_spec db fs data rows user with ⟨hfail, hsucc⟩
  refine ⟨hfail, fun hok => ?_⟩
  rcases hsucc hok with ⟨uu, T, ds, _, _, _, h4, h5, h6⟩
  refine ⟨h5, ⟨mkHeader data uu.2 T, by rw [h6]⟩,
    ⟨ds, by rw [h6], insertDetails_length db _ db.next_invoice_id _ rows 0 ds h4⟩⟩

/-- Witness for C1: with the example data, a failure of the second line
insert leaves the database unchanged and returns no id, while the
failure-free oracle returns id 1 and appends one header and two detail
rows. -/
theorem c1_witness :
    ((create_purchase_invoice dbEx fsLine2Fail dataEx rowsEx "alice").2 = dbEx ∧
     (create_purchase_invoice dbEx fsLine2Fail dataEx rowsEx "alice").1.invoice_id = none) ∧
    ((create_purchase_invoice dbEx fsOk dataEx rowsEx "alice").1.invoice_id =
        some dbEx.next_invoice_id ∧
     (∃ hd, (create_purchase_invoice dbEx fsOk dataEx rowsEx "alice").2.headers =
        dbEx.headers ++ [(dbEx.next_invoice_id, hd)]) ∧
     (∃ ds, (create_purchase_invoice dbEx fsOk dataEx rowsEx "alice").2.details =
        dbEx.details ++ ds ∧ ds.length = rowsEx.length)) :=
  ⟨(c1_create_invoice_atomic dbEx fsLine2Fail dataEx rowsEx "alice").1 rfl,
   (c1_create_invoice_atomic dbEx fsOk dataEx rowsEx "alice").2 rfl⟩

/-- C4: the persisted totals are invariant under duplicate line selection:
the confirm-step submission (which drops repeated arrival_detail_id rows
before calling create_purchase_invoice) produces exactly the same result
and database state - hence the same header total and detail amounts - on a
selection with repeated line identifiers as on the deduplicated
selection. -/
theorem c4_duplicate_selection_invariant (db : DB) (fs : FailSpec) (data : InvoiceData)
    (rows : List DetailRow) (user : String) :
    show_invoice_confirm_submit db fs data rows user =
      show_invoice_confirm_submit db fs data
        (pdDropDuplicates DetailRow.arrival_detail_id rows) user := by
  unfold show_invoice_confirm_submit pdDropDuplicates
  rw [dropDupAux_idem]

/-- Counterexample for C5: the claim predicts 30 for the input
"Net Net 45" (its suffix "Net 45" is not a parseable integer), but the
source's str.replace removes every occurrence of "Net " before parsing, so
the code returns 45. -/
theorem c5_counterexample :
    calculate_days_from_term_name (some "Net Net 45") = 45 ∧
    c5_claim_days (some "Net Net 45") = 30 ∧
    calculate_days_from_term_name (some "Net Net 45") ≠
      c5_claim_days (some "Net Net 45") := by
  refine ⟨by decide, by decide, by decide⟩

/-- C5 (amended): calculate_days_from_term_name is a pure total function
satisfying, in order: null/NaN input returns 30; for input starting with
"Net ", every occurrence of "Net " is removed and the first whitespace
token of the remainder is parsed, returning its integer value, and 30 when
there is no such token or it does not parse; input exactly equal to one of
"COD", "CIA", "TT IN ADVANCE" or containing the substring "Advance"
returns 0; every other input returns 30; determinism holds because the
function is pure.  The spec's test vectors hold. -/
theorem c5_term_calculator_amended :
    (∀ t, calculate_days_from_term_name t = c5_amended_days t) ∧
    calculate_days_from_term_name none = 30 ∧
    calculate_days_from_term_name (some "Net 45") = 45 ∧
    calculate_days_from_term_name (some "COD") = 0 ∧
    calculate_days_from_term_name (some "CIA") = 0 ∧
    calculate_days_from_term_name (some "TT IN ADVANCE") = 0 ∧
    calculate_days_from_term_name (some "Some Advance Term") = 0 ∧
    calculate_days_from_term_name (some "Net abc") = 30 := by
  refine ⟨fun t => ?_, by decide, by decide, by decide, by decide, by decide, by decide,
    by decide⟩
  cases t with
  | none => rfl
  | some s =>
    simp only [calculate_days_from_term_name, c5_amended_days]
    by_cases hb : listStartsWith "Net ".data s.data = true
    · simp only [hb, if_true]
      cases h : firstWsToken (replaceAllChars "Net ".data [] s.data) with
      | none => simp [h]
      | some tok =>
        cases hp : pyIntParse tok with
        | none => simp [h, hp]
        | some n => simp [h, hp]
    · simp [hb]

/-- C6: validate_invoice_selection checks, in order: empty selection,
multiple vendor codes, multiple vendor types, multiple legal-entity codes,
returning (False, message) at the first failing rule and (True, "") when
all pass; in particular any selection with two distinct vendor codes
returns the vendor-mismatch message regardless of how many legal entities
it spans. -/
theorem c6_validation_order (rows : List SelRow) :
    (rows = [] → validate_invoice_selection rows = (false, "No items selected")) ∧
    (1 < (pdUnique (rows.map SelRow.vendor_code)).length →
      validate_invoice_selection rows =
        (false, "Multiple vendors selected: "
          ++ String.intercalate ", " (pdUnique (rows.map SelRow.vendor_code))
          ++ ". Please select ANs from a single vendor.")) ∧
    ((pdUnique (rows.map SelRow.vendor_code)).length ≤ 1 →
      1 < (pdUnique (rows.map SelRow.vendor_type)).length →
      validate_invoice_selection rows =
        (false, "Cannot mix Internal and External vendors in the same invoice")) ∧
    ((pdUnique (rows.map SelRow.vendor_code)).length ≤ 1 →
      (pdUnique (rows.map SelRow.vendor_type)).length ≤ 1 →
      1 < (pdUnique (rows.map SelRow.legal_entity_code)).length →
      validate_invoice_selection rows =
        (false, "Multiple legal entities selected: "
          ++ String.intercalate ", " (pdUnique (rows.map SelRow.legal_entity_code))
          ++ ". Please select ANs from a single entity.")) ∧
    (rows ≠ [] →
      (pdUnique (rows.map SelRow.vendor_code)).length ≤ 1 →
      (pdUnique (rows.map SelRow.vendor_type)).length ≤ 1 →
      (pdUnique (rows.map SelRow.legal_entity_code)).length ≤ 1 →
      validate_invoice_selection rows = (true, "")) := by
  have hne : ∀ (P : Prop), (1 < (pdUnique (rows.map SelRow.vendor_code)).length → P) →
      1 < (pdUnique (rows.map SelRow.vendor_code)).length → rows ≠ [] := by
    intro _ _ h hnil
    rw [hnil] at h
    simp [pdUnique, dropDupAux] at h
  refine ⟨fun h => by simp [validate_invoice_selection, h], fun h => ?_, fun h1 h => ?_,
    fun h1 h2 h => ?_, fun h0 h1 h2 h3 => ?_⟩
  · have hnil : rows ≠ [] := hne True (fun _ => trivial) h
    simp [validate_invoice_selection, List.isEmpty_iff, hnil, h]
  · have hnil : rows ≠ [] := by
      intro hn
      rw [hn] at h
      simp [pdUnique, dropDupAux] at h
    simp [validate_invoice_selection, List.isEmpty_iff, hnil, Nat.not_lt.mpr h1, h]
  · have hnil : rows ≠ [] := by
      intro hn
      rw [hn] at h
      simp [pdUnique, dropDupAux] at h
    simp [validate_invoice_selection, List.isEmpty_iff, hnil, Nat.not_lt.mpr h1,
      Nat.not_lt.mpr h2, h]
  · simp [validate_invoice_selection, List.isEmpty_iff, h0, Nat.not_lt.mpr h1,
      Nat.not_lt.mpr h2, Nat.not_lt.mpr h3]

/-- Witness for C6: a selection spanning vendors V1 and V2 and entities E1
and E2 gets the vendor-mismatch message, not the entity message. -/
theorem c6_witness :
    validate_invoice_selection selRowsEx =
    (false, "Multiple vendors selected: "
      ++ String.intercalate ", " (pdUnique (selRowsEx.map SelRow.vendor_code))
      ++ ". Please select ANs from a single vendor.") :=
  (c6_validation_order selRowsEx).2.1 (by decide)

/-- C7: generate_invoice_number returns
V-INV(date)-(vendorId)(buyerId)(sequence)-(suffix), where the suffix is A
for an advance payment and P otherwise, the ids default to 0 when absent,
and the sequence is 1 + the maximum existing purchase-invoice id, taken as
0 when no invoices exist. -/
theorem c7_invoice_number_format (vendor_id buyer_id : Option Int)
    (is_advance_payment : Bool) (date_str : String) (max_id_cell : Option Nat) :
    generate_invoice_number vendor_id buyer_id is_advance_payment date_str max_id_cell =
      "V-INV" ++ date_str ++ "-" ++ toString (vendor_id.getD 0) ++ toString (buyer_id.getD 0)
        ++ toString (max_id_cell.getD 0 + 1) ++ "-"
        ++ (if is_advance_payment then "A" else "P") := by
  unfold generate_invoice_number
  have hn : ∀ n : Nat, (if n ≠ 0 then n else 0) = n := by
    intro n
    by_cases h : n = 0
    · simp [h]
    · simp [h]
  cases vendor_id <;> cases buyer_id <;> cases max_id_cell <;> simp [Option.getD, hn]

/-- C8: every row produced by get_uninvoiced_ans has
true_remaining_qty = max(0, min(uninvoiced_quantity,
po_line_pending_invoiced_qty)), and therefore
0 <= true_remaining_qty <= uninvoiced_quantity, whatever the pending
quantity is, since the query keeps only rows with uninvoiced_quantity >
0. -/
theorem c8_true_remaining_bound (view : List CanViewRow) (r : AnRow)
    (hr : r ∈ get_uninvoiced_ans view) :
    r.true_remaining_qty =
      max 0 (min r.uninvoiced_quantity r.po_line_pending_invoiced_qty) ∧
    0 ≤ r.true_remaining_qty ∧
    r.true_remaining_qty ≤ r.uninvoiced_quantity := by
  rcases List.mem_map.mp hr with ⟨v, hv, rfl⟩
  have hpos : 0 < v.uninvoiced_quantity := by
    rcases List.mem_filter.mp hv with ⟨_, hp⟩
    exact_mod_cast of_decide_eq_true hp
  refine ⟨rfl, le_max_left 0 _, ?_⟩
  exact max_le (le_of_lt hpos) (min_le_left _ _)

/-- Witness for C8: the row with uninvoiced quantity 10 and pending
quantity 4 is produced with true_remaining_qty 4, which satisfies the
bounds. -/
theorem c8_witness :
    anRowEx.true_remaining_qty =
      max 0 (min anRowEx.uninvoiced_quantity anRowEx.po_line_pending_invoiced_qty) ∧
    0 ≤ anRowEx.true_remaining_qty ∧
    anRowEx.true_remaining_qty ≤ anRowEx.uninvoiced_quantity :=
  c8_true_remaining_bound [anViewEx] anRowEx
    (by norm_num [get_uninvoiced_ans, anViewEx, anRowEx])

/-- Counterexample for C2: with two lines of raw amount 1.004 each, the
persisted header total round(2.008, 2) = 2.01 differs from the sum
1.00 + 1.00 = 2.00 of the persisted per-line amount_exclude_vat values, so
one-shot rounding and per-line rounding are not equal in general. -/
theorem c2_counterexample :
    ((create_purchase_invoice dbEx fsOk dataEx rowsC2 "alice").2.headers.map
      (fun p => p.2.total_invoiced_amount_exclude_vat)) = [201 / 100] ∧
    (((create_purchase_invoice dbEx fsOk dataEx rowsC2 "alice").2.details.map
      (fun d => d.amount_exclude_vat)).sum) = 2 ∧
    (201 / 100 : ℚ) ≠ 2 := by
  refine ⟨?_, ?_, by norm_num⟩ <;>
    norm_num +decide [create_purchase_invoice, dbEx, fsOk, dataEx, rowsC2,
      firstPassTotal, insertDetails, rowUnitCost, firstWsToken, pyFloatParse,
      trimChars, splitOnDot, parseNatDigits, digitsVal, listStartsWith,
      mkHeader, mkDetail, lookupVat, round2, roundHalfEven, List.find?,
      pyTruthyStr]

/-- C2 (amended): the persisted header field total_invoiced_amount_exclude_vat
equals round(sum of the unrounded line amounts, 2); when every line amount
unit_cost * quantity * po_to_invoice_rate is an exact multiple of 0.01
this equals the sum of the persisted per-line amount_exclude_vat values,
but the two can differ by the line-sum versus one-shot rounding tolerance
otherwise. -/
theorem c2_header_total_eq_line_sum (db : DB) (fs : FailSpec) (data : InvoiceData)
    (rows : List DetailRow) (user : String)
    (hok : (create_purchase_invoice db fs data rows user).1.success = true)
    (h2dec : ∀ row ∈ rows, ∃ uc : ℚ, rowUnitCost row = Except.ok uc ∧
      ∃ k : ℤ, uc * row.uninvoiced_quantity * data.po_to_invoice_rate.getD 1 =
        (k : ℚ) / 100) :
    ∃ hd ds,
      (create_purchase_invoice db fs data rows user).2.headers =
        db.headers ++ [(db.next_invoice_id, hd)] ∧
      (create_purchase_invoice db fs data rows user).2.details = db.details ++ ds ∧
      hd.total_invoiced_amount_exclude_vat =
        (ds.map (fun d => d.amount_exclude_vat)).sum := by
  rcases (create_purchase_invoice_spec db fs data rows user).2 hok with
    ⟨uu, T, ds, _, h2, _, h4, _, h6⟩
  rcases firstPass_sum_eq_line_sum db (data.po_to_invoice_rate.getD 1) db.next_invoice_id
    fs.detail_insert_fails rows 0 T ds h2 h4 h2dec with ⟨hsum, k, hk⟩
  refine ⟨mkHeader data uu.2 T, ds, by rw [h6], by rw [h6], ?_⟩
  show round2 T = (ds.map (fun d => d.amount_exclude_vat)).sum
  rw [← hsum, hk, round2_int_div_100]

/-- Witness for C2 (amended): the example run with lines 100.00 x 10 and
100.00 x 5 succeeds and its header total equals the sum of the line
amounts (1500.00 = 1000.00 + 500.00). -/
theorem c2_witness :
    ∃ hd ds,
      (create_purchase_invoice dbEx fsOk dataEx rowsEx "alice").2.headers =
        dbEx.headers ++ [(dbEx.next_invoice_id, hd)] ∧
      (create_purchase_invoice dbEx fsOk dataEx rowsEx "alice").2.details =
        dbEx.details ++ ds ∧
      hd.total_invoiced_amount_exclude_vat =
        (ds.map (fun d => d.amount_exclude_vat)).sum := by
  refine c2_header_total_eq_line_sum dbEx fsOk dataEx rowsEx "alice" rfl ?_
  intro row hr
  simp only [rowsEx, List.mem_cons, List.not_mem_nil, or_false] at hr
  rcases hr with rfl | rfl
  · refine ⟨100, ?_, 100000, ?_⟩
    · norm_num +decide [rowsEx, rowUnitCost, firstWsToken, pyFloatParse, trimChars,
        splitOnDot, parseNatDigits, digitsVal, listStartsWith]
    · norm_num [rowsEx, dataEx]
  · refine ⟨100, ?_, 50000, ?_⟩
    · norm_num +decide [rowsEx, rowUnitCost, firstWsToken, pyFloatParse, trimChars,
        splitOnDot, parseNatDigits, digitsVal, listStartsWith]
    · norm_num [rowsEx, dataEx]

/-- C3: every detail row persisted by a successful run carries
vat_gst as looked up at write time from product_purchase_orders,
amount_exclude_vat = round(unit_cost * quantity * po_to_invoice_rate, 2)
and amount = round(amount_exclude_vat * (1 + vat_percent / 100), 2). -/
theorem c3_line_amounts (db : DB) (fs : FailSpec) (data : InvoiceData)
    (rows : List DetailRow) (user : String)
    (hok : (create_purchase_invoice db fs data rows user).1.success = true) :
    ∃ ds,
      (create_purchase_invoice db fs data rows user).2.details = db.details ++ ds ∧
      List.Forall₂
        (fun (d : Detail) (row : DetailRow) =>
          ∃ uc, rowUnitCost row = Except.ok uc ∧
            d.vat_gst = lookupVat db row.product_purchase_order_id ∧
            d.amount_exclude_vat =
              round2 (uc * row.uninvoiced_quantity * data.po_to_invoice_rate.getD 1) ∧
            d.amount =
              round2 (d.amount_exclude_vat *
                (1 + lookupVat db row.product_purchase_order_id / 100)))
        ds rows := by
  rcases (create_purchase_invoice_spec db fs data rows user).2 hok with
    ⟨uu, T, ds, _, _, _, h4, _, h6⟩
  refine ⟨ds, by rw [h6], ?_⟩
  refine (insertDetails_ok db _ db.next_invoice_id _ rows 0 ds h4).imp ?_
  rintro d row ⟨uc, hu, rfl⟩
  exact ⟨uc, hu, rfl, rfl, rfl⟩

/-- Witness for C3: the example run succeeds, so its two detail rows
satisfy the per-line amount and VAT equations. -/
theorem c3_witness :
    ∃ ds,
      (create_purchase_invoice dbEx fsOk dataEx rowsEx "alice").2.details =
        dbEx.details ++ ds ∧
      List.Forall₂
        (fun (d : Detail) (row : DetailRow) =>
          ∃ uc, rowUnitCost row = Except.ok uc ∧
            d.vat_gst = lookupVat dbEx row.product_purchase_order_id ∧
            d.amount_exclude_vat =
              round2 (uc * row.uninvoiced_quantity * dataEx.po_to_invoice_rate.getD 1) ∧
            d.amount =
              round2 (d.amount_exclude_vat *
                (1 + lookupVat dbEx row.product_purchase_order_id / 100)))
        ds rowsEx :=
  c3_line_amounts dbEx fsOk dataEx rowsEx "alice" rfl

/-- C9: when invoice_data carries no po_to_invoice_rate key the function
does not fail because of it: the run is identical to the same run with the
rate present and equal to 1.0, and every detail row it persists stores
exchange_rate = 1 (rows already in the database are untouched). -/
theorem c9_missing_rate_defaults_to_one (db : DB) (fs : FailSpec) (data : InvoiceData)
    (rows : List DetailRow) (user : String) (h : data.po_to_invoice_rate = none) :
    create_purchase_invoice db fs data rows user =
      create_purchase_invoice db fs { data with po_to_invoice_rate := some 1 } rows user ∧
    ∀ d ∈ (create_purchase_invoice db fs data rows user).2.details,
      d ∈ db.details ∨ d.exchange_rate = 1 := by
  constructor
  · cases data
    cases h
    rfl
  · intro d hd
    rcases create_purchase_invoice_spec db fs data rows user with ⟨hfail, hsucc⟩
    cases hs : (create_purchase_invoice db fs data rows user).1.success with
    | false =>
      rcases hfail hs with ⟨hdb, _⟩
      rw [hdb] at hd
      exact Or.inl hd
    | true =>
      rcases hsucc hs with ⟨uu, T, ds, _, _, _, h4, _, h6⟩
      rw [h6] at hd
      simp only [List.mem_append] at hd
      rcases hd with hd | hd
      · exact Or.inl hd
      · rcases insertDetails_mem db _ db.next_invoice_id _ rows 0 ds h4 d hd with
          ⟨row, uc, rfl⟩
        right
        show data.po_to_invoice_rate.getD 1 = 1
        rw [h]
        rfl

/-- Witness for C9: the example invoice_data has no po_to_invoice_rate, and
its run equals the run with rate 1.0, with every new detail row storing
exchange_rate 1. -/
theorem c9_witness :
    create_purchase_invoice dbEx fsOk dataEx rowsEx "alice" =
      create_purchase_invoice dbEx fsOk { dataEx with po_to_invoice_rate := some 1 }
        rowsEx "alice" ∧
    ∀ d ∈ (create_purchase_invoice dbEx fsOk dataEx rowsEx "alice").2.details,
      d ∈ dbEx.details ∨ d.exchange_rate = 1 :=
  c9_missing_rate_defaults_to_one dbEx fsOk dataEx rowsEx "alice" rfl

/-- C10: when the write-time VAT lookup for a line finds no
product_purchase_orders row, a NULL vat_gst, or no truthy
product_purchase_order_id on the row, the successful run persists that
line with vat_gst = 0 and its VAT-inclusive amount equal to its
VAT-exclusive amount, instead of failing or reusing a selection-time
rate. -/
theorem c10_vat_fallback_zero (db : DB) (fs : FailSpec) (data : InvoiceData)
    (rows : List DetailRow) (user : String)
    (hok : (create_purchase_invoice db fs data rows user).1.success = true) :
    ∃ ds,
      (create_purchase_invoice db fs data rows user).2.details = db.details ++ ds ∧
      List.Forall₂
        (fun (d : Detail) (row : DetailRow) =>
          vatFallback db row → d.vat_gst = 0 ∧ d.amount = d.amount_exclude_vat)
        ds rows := by
  rcases (create_purchase_invoice_spec db fs data rows user).2 hok with
    ⟨uu, T, ds, _, _, _, h4, _, h6⟩
  refine ⟨ds, by rw [h6], ?_⟩
  refine (insertDetails_ok db _ db.next_invoice_id _ rows 0 ds h4).imp ?_
  rintro d row ⟨uc, _, rfl⟩ hfb
  have hv : lookupVat db row.product_purchase_order_id = 0 := lookupVat_fallback db _ hfb
  constructor
  · show lookupVat db row.product_purchase_order_id = 0
    exact hv
  · show round2 (round2 (uc * row.uninvoiced_quantity * _) *
      (1 + lookupVat db row.product_purchase_order_id / 100)) =
      round2 (uc * row.uninvoiced_quantity * _)
    rw [hv, round2_mul_one_vat_zero]

/-- Witness for C10: the run whose single line references PO line 8 (NULL
vat_gst) succeeds, so its detail row is covered by the fallback
implication. -/
theorem c10_witness :
    ∃ ds,
      (create_purchase_invoice dbEx fsOk dataEx rowsC10 "alice").2.details =
        dbEx.details ++ ds ∧
      List.Forall₂
        (fun (d : Detail) (row : DetailRow) =>
          vatFallback dbEx row → d.vat_gst = 0 ∧ d.amount = d.amount_exclude_vat)
        ds rowsC10 :=
  c10_vat_fallback_zero dbEx fsOk dataEx rowsC10 "alice" rfl
